import Mathlib

/-!
Shallow embedding of the tour-data API client (`src/lib/api/tour-api.ts`) of
the navernews repository, together with proofs of the specified properties:
the response-envelope data model, the bounded-retry loop with exponential
backoff (`fetchWithRetry`), item extraction (`extractItems`), pagination
derivation (`extractPaginationInfo`) and the public operations.

Modelling conventions:
* The payload item type (`TourItem`, `TourDetail`, ... in the source) is kept
  as a type parameter `T`; the source functions are instances at fixed `T`.
* JavaScript truthiness on optional strings/numbers (`x || d`, `if (x)`) is
  modelled by `jsStrDefault` / `jsNatDefault` / the emptiness tests below:
  `undefined`, `""` and `0` are falsy.
* The network is abstracted as a stream `attempts : Nat → FetchOutcome T`
  giving, for each 0-indexed attempt, the outcome of `fetch` plus body
  parsing; the retry loop is a pure function of that stream which records the
  number of attempts made and the backoff sleeps (in milliseconds) performed.
* The outgoing request is modelled as its ordered query-parameter list (the
  source serialises exactly this list with `URLSearchParams`).
-/

namespace TourApi

/-- Envelope header (`response.header` of `ApiResponse<T>` in
`lib/types/tour.ts`): `resultCode` and `resultMsg` are plain strings. -/
structure ApiHeader where
  resultCode : String
  resultMsg : String
  deriving Repr, DecidableEq

/-- The `item` field of `body.items`: the upstream returns either a single
object or an array (`item: T | T[]` in `lib/types/tour.ts`). -/
inductive ItemField (T : Type) where
  | single (t : T)
  | array (ts : List T)
  deriving Repr, DecidableEq

/-- The `items` object of the envelope body. In `ApiErrorResponse` the inner
`item` may be absent, and `extractItems` checks for that defensively, so the
field is optional here. -/
structure ApiItems (T : Type) where
  item : Option (ItemField T)
  deriving Repr, DecidableEq

/-- Envelope body: optional `items`, `numOfRows`, `pageNo`, `totalCount`. -/
structure ApiBody (T : Type) where
  items : Option (ApiItems T)
  numOfRows : Option Nat
  pageNo : Option Nat
  totalCount : Option Nat
  deriving Repr, DecidableEq

/-- The `response` object of the envelope: header plus body. -/
structure ApiEnvelope (T : Type) where
  header : ApiHeader
  body : ApiBody T
  deriving Repr, DecidableEq

/-- `ApiResponse<T>`: the upstream wraps everything in a `response` field. -/
structure ApiResponse (T : Type) where
  response : ApiEnvelope T
  deriving Repr, DecidableEq

/-- Errors raised by the client. The source uses a single `TourApiError`
class (message, optional `statusCode`, optional `apiErrorCode`) plus the
native errors thrown by `fetch` (network failure) and `response.json()`
(parse failure); the constructors record which data each carries.
`afterRetries` is the defensive `"API request failed after retries"` error. -/
inductive TourApiError where
  | invalidArgument (message : String)
  | httpError (statusCode : Nat)
  | networkError (message : String)
  | parseError
  | apiError (message : String) (apiErrorCode : String)
  | notFound (message : String)
  | afterRetries
  deriving Repr, DecidableEq

/-- JavaScript `x || d` for an optional string: `undefined` and `""` are
falsy and fall back to the default. -/
def jsStrDefault (x : Option String) (d : String) : String :=
  match x with
  | none => d
  | some s => if s = "" then d else s

/-- JavaScript `x || d` for an optional number: `undefined` and `0` are
falsy and fall back to the default. -/
def jsNatDefault (x : Option Nat) (d : Nat) : Nat :=
  match x with
  | none => d
  | some n => if n = 0 then d else n

/-- `Math.ceil(a / b)` on natural numbers (used only with `0 < b`). -/
def mathCeilDiv (a b : Nat) : Nat :=
  (a + b - 1) / b

/-- JavaScript `s.trim()`: drop leading and trailing whitespace (written
structurally over the character list so that it evaluates by reduction). -/
def jsTrim (s : String) : String :=
  ⟨((s.data.dropWhile Char.isWhitespace).reverse.dropWhile
    Char.isWhitespace).reverse⟩

/-- Outcome of one attempt's transport step: either `fetch` rejects with a
network error, or it resolves to a response with an HTTP status whose body
either parses to an envelope (`some`) or fails to parse (`none`). -/
inductive FetchOutcome (T : Type) where
  | networkError (message : String)
  | response (status : Nat) (body : Option (ApiResponse T))
  deriving Repr, DecidableEq

/-- The body of the `try` block of one iteration of `fetchWithRetry`:
throw on non-2xx status (`response.ok` is status 200–299), throw on a body
that fails to parse, throw an `apiError` when the envelope's `resultCode` is
not the success sentinel `"0000"` (with `resultMsg || "Unknown API error"`),
otherwise return the envelope. -/
def runAttempt {T : Type} (o : FetchOutcome T) : Except TourApiError (ApiResponse T) :=
  match o with
  | .networkError m => .error (.networkError m)
  | .response status body =>
    if 200 ≤ status ∧ status ≤ 299 then
      match body with
      | none => .error .parseError
      | some data =>
        if data.response.header.resultCode ≠ "0000" then
          .error (.apiError (jsStrDefault (some data.response.header.resultMsg)
            "Unknown API error") data.response.header.resultCode)
        else
          .ok data
    else
      .error (.httpError status)

/-- `true` exactly on `Except.ok`. -/
def isOk {ε α : Type} (x : Except ε α) : Bool :=
  match x with
  | .ok _ => true
  | .error _ => false

/-- Observable trace of a `fetchWithRetry` call: how many HTTP attempts were
made, which backoff sleeps (in ms, in order) were performed, and the final
result (the returned envelope, or the error ultimately thrown). -/
structure FetchTrace (T : Type) where
  attemptsMade : Nat
  sleeps : List Nat
  result : Except TourApiError (ApiResponse T)
  deriving Repr

/-- The loop `for (let attempt = 0; attempt < maxRetries; attempt++)` of
`fetchWithRetry`, recursing on `remaining = maxRetries - attempt`. On a
failed attempt that is not the last (`attempt < maxRetries - 1`, i.e.
`remaining ≠ 0` after peeling one iteration) the loop sleeps
`Math.pow(2, attempt) * 1000` ms and continues; a failure on the last
attempt falls out of the loop and throws the last captured error; if the
loop body never ran, `lastError` is still `null` and the defensive
`afterRetries` error is thrown. -/
def fetchLoop {T : Type} (attempts : Nat → FetchOutcome T) :
    Nat → Nat → FetchTrace T
  | _, 0 => ⟨0, [], .error .afterRetries⟩
  | attempt, remaining + 1 =>
    match runAttempt (attempts attempt) with
    | .ok data => ⟨1, [], .ok data⟩
    | .error e =>
      if remaining = 0 then
        ⟨1, [], .error e⟩
      else
        let rest := fetchLoop attempts (attempt + 1) remaining
        ⟨rest.attemptsMade + 1, 2 ^ attempt * 1000 :: rest.sleeps, rest.result⟩

/-- `fetchWithRetry(url, maxRetries = 3)`: run the retry loop from attempt 0.
The URL plays no role in the modelled control flow; the transport is the
`attempts` stream. -/
def fetchWithRetry {T : Type} (attempts : Nat → FetchOutcome T)
    (maxRetries : Nat := 3) : FetchTrace T :=
  fetchLoop attempts 0 maxRetries

/-- `extractItems`: normalise `response.response.body.items.item` to a list —
absent (either level) gives `[]`, a single object gives a one-element list,
an array is returned unchanged. -/
def extractItems {T : Type} (response : ApiResponse T) : List T :=
  match response.response.body.items with
  | none => []
  | some items =>
    match items.item with
    | none => []
    | some (.single t) => [t]
    | some (.array ts) => ts

/-- Result of `extractPaginationInfo`. -/
structure PaginationInfo where
  totalCount : Nat
  numOfRows : Nat
  pageNo : Nat
  deriving Repr, DecidableEq

/-- `extractPaginationInfo`: read `totalCount || 0`, `numOfRows || 20`,
`pageNo || 1` from the envelope body. -/
def extractPaginationInfo {T : Type} (response : ApiResponse T) : PaginationInfo :=
  { totalCount := jsNatDefault response.response.body.totalCount 0
    numOfRows := jsNatDefault response.response.body.numOfRows 20
    pageNo := jsNatDefault response.response.body.pageNo 1 }

/-- `CommonParams` (all fields optional in the source interface). -/
structure CommonParams where
  serviceKey : Option String := none
  MobileOS : Option String := none
  MobileApp : Option String := none
  _type : Option String := none
  numOfRows : Option Nat := none
  pageNo : Option Nat := none
  deriving Repr, DecidableEq

/-- Conditional numeric entry for `getCommonParams`: the
`if (customParams?.x) params.x = String(customParams.x)` statements add the
entry only when the optional number is present and truthy (non-zero). -/
def optNatEntry (name : String) (v : Option Nat) : List (String × String) :=
  match v with
  | none => []
  | some n => if n = 0 then [] else [(name, toString n)]

/-- `getCommonParams(customParams?)`: the fixed string entries (falling back
to the API key read from configuration and to `"ETC"`, `"MyTrip"`, `"json"`),
then `numOfRows` / `pageNo` appended only when truthy. The API key is passed
in explicitly here; `getApiKey`'s environment lookup (and the configuration
error when it is unset) is outside the modelled control flow. -/
def getCommonParams (apiKey : String) (customParams : Option CommonParams) :
    List (String × String) :=
  [("serviceKey", jsStrDefault (customParams.bind (·.serviceKey)) apiKey),
   ("MobileOS", jsStrDefault (customParams.bind (·.MobileOS)) "ETC"),
   ("MobileApp", jsStrDefault (customParams.bind (·.MobileApp)) "MyTrip"),
   ("_type", jsStrDefault (customParams.bind (·._type)) "json")]
  ++ optNatEntry "numOfRows" (customParams.bind (·.numOfRows))
  ++ optNatEntry "pageNo" (customParams.bind (·.pageNo))

/-- `if (v) queryParams[name] = v`: append the entry only when the optional
string is present and non-empty. -/
def addIfTruthy (name : String) (v : Option String)
    (qs : List (String × String)) : List (String × String) :=
  match v with
  | none => qs
  | some s => if s = "" then qs else qs ++ [(name, s)]

/-- Fold the source's sequence of `if (params.x) queryParams.x = params.x`
statements over an explicit (name, optional value) list, in order. -/
def addOptionalEntries (qs : List (String × String))
    (pairs : List (String × Option String)) : List (String × String) :=
  pairs.foldl (fun acc p => addIfTruthy p.1 p.2 acc) qs

/-- `GetAreaBasedListParams`. -/
structure GetAreaBasedListParams where
  areaCode : Option String := none
  sigunguCode : Option String := none
  contentTypeId : Option String := none
  cat1 : Option String := none
  cat2 : Option String := none
  cat3 : Option String := none
  numOfRows : Option Nat := none
  pageNo : Option Nat := none
  arrange : Option String := none
  modifiedtime : Option String := none
  deriving Repr, DecidableEq

/-- The optional filter options of `getAreaBasedList`, in the order the
source assigns them into `queryParams`. -/
def areaBasedOptionalPairs (params : GetAreaBasedListParams) :
    List (String × Option String) :=
  [("areaCode", params.areaCode),
   ("sigunguCode", params.sigunguCode),
   ("contentTypeId", params.contentTypeId),
   ("cat1", params.cat1),
   ("cat2", params.cat2),
   ("cat3", params.cat3),
   ("arrange", params.arrange),
   ("modifiedtime", params.modifiedtime)]

/-- Query-parameter list of the `areaBasedList2` request: common parameters
(with the defaulted `numOfRows` / `pageNo`) followed by the provided
optional filters. -/
def areaBasedListQuery (apiKey : String) (params : GetAreaBasedListParams) :
    List (String × String) :=
  let numOfRows := jsNatDefault params.numOfRows 20
  let pageNo := jsNatDefault params.pageNo 1
  addOptionalEntries
    (getCommonParams apiKey (some { numOfRows := some numOfRows, pageNo := some pageNo }))
    (areaBasedOptionalPairs params)

/-- `PaginatedResponse<T>` (`lib/types/pagination.ts`). -/
structure PaginatedResponse (T : Type) where
  items : List T
  totalCount : Nat
  numOfRows : Nat
  pageNo : Nat
  totalPages : Nat
  deriving Repr, DecidableEq

/-- Observable trace of one public operation: the query list of the request
it built (`none` when validation failed before a request was built), the
number of HTTP attempts, the backoff sleeps, and the result or error. -/
structure OpTrace (α : Type) where
  query : Option (List (String × String))
  httpAttempts : Nat
  sleeps : List Nat
  result : Except TourApiError α
  deriving Repr

/-- `getAreaBasedList(params)`: default `numOfRows || 20` and
`pageNo || 1`, build the query, fetch with retry, extract items and
pagination, and recompute `totalPages = Math.ceil(totalCount / numOfRows)`
with the request's `numOfRows`. The returned `numOfRows` / `pageNo` are the
request-side values; only `totalCount` comes from the envelope. -/
def getAreaBasedList {T : Type} (apiKey : String)
    (params : GetAreaBasedListParams) (attempts : Nat → FetchOutcome T) :
    OpTrace (PaginatedResponse T) :=
  let numOfRows := jsNatDefault params.numOfRows 20
  let pageNo := jsNatDefault params.pageNo 1
  let q := areaBasedListQuery apiKey params
  let t := fetchWithRetry attempts
  match t.result with
  | .error e => ⟨some q, t.attemptsMade, t.sleeps, .error e⟩
  | .ok response =>
    let items := extractItems response
    let pagination := extractPaginationInfo response
    let totalPages := mathCeilDiv pagination.totalCount numOfRows
    ⟨some q, t.attemptsMade, t.sleeps,
     .ok ⟨items, pagination.totalCount, numOfRows, pageNo, totalPages⟩⟩

/-- `SearchKeywordParams`: a required keyword plus the same filter set as
`GetAreaBasedListParams`. -/
structure SearchKeywordParams where
  keyword : String
  areaCode : Option String := none
  sigunguCode : Option String := none
  contentTypeId : Option String := none
  cat1 : Option String := none
  cat2 : Option String := none
  cat3 : Option String := none
  numOfRows : Option Nat := none
  pageNo : Option Nat := none
  arrange : Option String := none
  modifiedtime : Option String := none
  deriving Repr, DecidableEq

/-- The optional filter options of `searchKeyword`, in assignment order. -/
def searchOptionalPairs (params : SearchKeywordParams) :
    List (String × Option String) :=
  [("areaCode", params.areaCode),
   ("sigunguCode", params.sigunguCode),
   ("contentTypeId", params.contentTypeId),
   ("cat1", params.cat1),
   ("cat2", params.cat2),
   ("cat3", params.cat3),
   ("arrange", params.arrange),
   ("modifiedtime", params.modifiedtime)]

/-- Query-parameter list of the `searchKeyword2` request: common parameters,
the trimmed keyword, then the provided optional filters. -/
def searchKeywordQuery (apiKey : String) (params : SearchKeywordParams) :
    List (String × String) :=
  let numOfRows := jsNatDefault params.numOfRows 20
  let pageNo := jsNatDefault params.pageNo 1
  addOptionalEntries
    (getCommonParams apiKey (some { numOfRows := some numOfRows, pageNo := some pageNo })
      ++ [("keyword", jsTrim params.keyword)])
    (searchOptionalPairs params)

/-- `searchKeyword(params)`: reject an empty-after-trim keyword before any
request is built (`!params.keyword || jsTrim params.keyword() === ""` is
equivalent to `keyword.trim() === ""` for a string-typed field), then behave
like `getAreaBasedList` with the keyword added to the query. -/
def searchKeyword {T : Type} (apiKey : String) (params : SearchKeywordParams)
    (attempts : Nat → FetchOutcome T) : OpTrace (PaginatedResponse T) :=
  if jsTrim params.keyword = "" then
    ⟨none, 0, [], .error (.invalidArgument "Keyword is required")⟩
  else
    let numOfRows := jsNatDefault params.numOfRows 20
    let pageNo := jsNatDefault params.pageNo 1
    let q := searchKeywordQuery apiKey params
    let t := fetchWithRetry attempts
    match t.result with
    | .error e => ⟨some q, t.attemptsMade, t.sleeps, .error e⟩
    | .ok response =>
      let items := extractItems response
      let pagination := extractPaginationInfo response
      let totalPages := mathCeilDiv pagination.totalCount numOfRows
      ⟨some q, t.attemptsMade, t.sleeps,
       .ok ⟨items, pagination.totalCount, numOfRows, pageNo, totalPages⟩⟩

/-- `getAreaCode(areaCode?)`: common parameters plus the optional parent
area code; returns the extracted item list (which may be empty). -/
def getAreaCode {T : Type} (apiKey : String) (areaCode : Option String)
    (attempts : Nat → FetchOutcome T) : OpTrace (List T) :=
  let q := addIfTruthy "areaCode" areaCode (getCommonParams apiKey none)
  let t := fetchWithRetry attempts
  match t.result with
  | .error e => ⟨some q, t.attemptsMade, t.sleeps, .error e⟩
  | .ok response => ⟨some q, t.attemptsMade, t.sleeps, .ok (extractItems response)⟩

/-- `getDetailCommon(contentId)`: reject an empty-after-trim content id
before any request; send the trimmed id; raise the not-found error when zero
items are extracted, otherwise return `items[0]`. -/
def getDetailCommon {T : Type} (apiKey : String) (contentId : String)
    (attempts : Nat → FetchOutcome T) : OpTrace T :=
  if jsTrim contentId = "" then
    ⟨none, 0, [], .error (.invalidArgument "ContentId is required")⟩
  else
    let q := getCommonParams apiKey none ++ [("contentId", jsTrim contentId)]
    let t := fetchWithRetry attempts
    match t.result with
    | .error e => ⟨some q, t.attemptsMade, t.sleeps, .error e⟩
    | .ok response =>
      match extractItems response with
      | [] => ⟨some q, t.attemptsMade, t.sleeps,
          .error (.notFound ("Tour detail not found for contentId: " ++ contentId))⟩
      | x :: _ => ⟨some q, t.attemptsMade, t.sleeps, .ok x⟩

/-- `getDetailIntro(contentId, contentTypeId)`: validate both ids (content id
first), send both trimmed, and raise the not-found error on zero items. -/
def getDetailIntro {T : Type} (apiKey : String)
    (contentId contentTypeId : String) (attempts : Nat → FetchOutcome T) :
    OpTrace T :=
  if jsTrim contentId = "" then
    ⟨none, 0, [], .error (.invalidArgument "ContentId is required")⟩
  else if jsTrim contentTypeId = "" then
    ⟨none, 0, [], .error (.invalidArgument "ContentTypeId is required")⟩
  else
    let q := getCommonParams apiKey none ++
      [("contentId", jsTrim contentId), ("contentTypeId", jsTrim contentTypeId)]
    let t := fetchWithRetry attempts
    match t.result with
    | .error e => ⟨some q, t.attemptsMade, t.sleeps, .error e⟩
    | .ok response =>
      match extractItems response with
      | [] => ⟨some q, t.attemptsMade, t.sleeps,
          .error (.notFound ("Tour intro not found for contentId: " ++ contentId
            ++ ", contentTypeId: " ++ contentTypeId))⟩
      | x :: _ => ⟨some q, t.attemptsMade, t.sleeps, .ok x⟩

/-- `getDetailImage(contentId)`: validate the content id, then return the
extracted image list (which may be empty). -/
def getDetailImage {T : Type} (apiKey : String) (contentId : String)
    (attempts : Nat → FetchOutcome T) : OpTrace (List T) :=
  if jsTrim contentId = "" then
    ⟨none, 0, [], .error (.invalidArgument "ContentId is required")⟩
  else
    let q := getCommonParams apiKey none ++ [("contentId", jsTrim contentId)]
    let t := fetchWithRetry attempts
    match t.result with
    | .error e => ⟨some q, t.attemptsMade, t.sleeps, .error e⟩
    | .ok response => ⟨some q, t.attemptsMade, t.sleeps, .ok (extractItems response)⟩

/-- `getDetailPetTour(contentId)`: validate the content id; on success return
`items[0]` or `null` when no items; catch a thrown error and convert it to
`null` exactly when it is a `TourApiError` whose `apiErrorCode` is
`"SERVICE_ERROR"` (only envelope-level `apiError`s carry an
`apiErrorCode`); re-throw every other error. -/
def getDetailPetTour {T : Type} (apiKey : String) (contentId : String)
    (attempts : Nat → FetchOutcome T) : OpTrace (Option T) :=
  if jsTrim contentId = "" then
    ⟨none, 0, [], .error (.invalidArgument "ContentId is required")⟩
  else
    let q := getCommonParams apiKey none ++ [("contentId", jsTrim contentId)]
    let t := fetchWithRetry attempts
    match t.result with
    | .ok response =>
      match extractItems response with
      | [] => ⟨some q, t.attemptsMade, t.sleeps, .ok none⟩
      | x :: _ => ⟨some q, t.attemptsMade, t.sleeps, .ok (some x)⟩
    | .error e =>
      match e with
      | .apiError m code =>
        if code = "SERVICE_ERROR" then
          ⟨some q, t.attemptsMade, t.sleeps, .ok none⟩
        else
          ⟨some q, t.attemptsMade, t.sleeps, .error (.apiError m code)⟩
      | _ => ⟨some q, t.attemptsMade, t.sleeps, .error e⟩

/-! ### Helper lemmas about the retry loop -/

theorem fetchLoop_attemptsMade_le {T : Type} (attempts : Nat → FetchOutcome T)
    (a r : Nat) : (fetchLoop attempts a r).attemptsMade ≤ r := by
  induction r generalizing a with
  | zero => simp [fetchLoop]
  | succ s ih =>
    simp only [fetchLoop]
    cases runAttempt (attempts a) with
    | ok d => simp
    | error e =>
      by_cases hs : s = 0
      · simp [hs]
      · simpa [hs] using ih (a + 1)

theorem fetchLoop_attemptsMade_pos {T : Type} (attempts : Nat → FetchOutcome T)
    (a s : Nat) : 1 ≤ (fetchLoop attempts a (s + 1)).attemptsMade := by
  simp only [fetchLoop]
  cases runAttempt (attempts a) with
  | ok d => simp
  | error e =>
    by_cases hs : s = 0
    · simp [hs]
    · simp [hs]

theorem fetchLoop_error_cons {T : Type} (attempts : Nat → FetchOutcome T)
    (a s : Nat) (e : TourApiError) (h : runAttempt (attempts a) = .error e)
    (hs : s ≠ 0) :
    fetchLoop attempts a (s + 1) =
      ⟨(fetchLoop attempts (a + 1) s).attemptsMade + 1,
       2 ^ a * 1000 :: (fetchLoop attempts (a + 1) s).sleeps,
       (fetchLoop attempts (a + 1) s).result⟩ := by
  simp [fetchLoop, h, hs]

theorem fetchLoop_sleeps_eq {T : Type} (attempts : Nat → FetchOutcome T)
    (a r : Nat) :
    (fetchLoop attempts a r).sleeps =
      (List.range ((fetchLoop attempts a r).attemptsMade - 1)).map
        (fun i => 2 ^ (a + i) * 1000) := by
  induction r generalizing a with
  | zero => simp [fetchLoop]
  | succ s ih =>
    simp only [fetchLoop]
    cases runAttempt (attempts a) with
    | ok d => simp
    | error e =>
      by_cases hs : s = 0
      · simp [hs]
      · simp only [hs, if_false]
        obtain ⟨k, hk⟩ : ∃ k, (fetchLoop attempts (a + 1) s).attemptsMade = k + 1 := by
          obtain ⟨s', rfl⟩ := Nat.exists_eq_succ_of_ne_zero hs
          exact ⟨(fetchLoop attempts (a + 1) (s' + 1)).attemptsMade - 1,
            (Nat.succ_pred_eq_of_pos (fetchLoop_attemptsMade_pos attempts (a + 1) s')).symm⟩
        rw [ih (a + 1), hk]
        simp only [Nat.add_sub_cancel, List.range_succ_eq_map, List.map_cons,
          List.map_map]
        simp only [List.cons.injEq]
        refine ⟨by simp, ?_⟩
        apply List.map_congr_left
        intro i _
        simp only [Function.comp_apply, Nat.succ_eq_add_one]
        have h : a + 1 + i = a + (i + 1) := by omega
        rw [h]

/-! ### Claims -/

/-- Claim C1: every call of `fetchWithRetry` at the default `maxRetries = 3`
makes at most 3 attempts; the sequence of backoff sleeps is exactly
`2^i * 1000` ms between attempt `i` and attempt `i + 1` (1000 ms then
2000 ms), with one sleep per non-final attempt and hence no wait after the
final attempt; and an attempt fails (triggering a retry when attempts
remain) on any network failure, any non-2xx HTTP status, and any envelope
whose `resultCode` is not the success sentinel `"0000"`. -/
theorem c1_retry_count_and_backoff {T : Type} (attempts : Nat → FetchOutcome T)
    (m : String) (s : Nat) (b : Option (ApiResponse T)) (env : ApiResponse T)
    (hs : ¬ (200 ≤ s ∧ s ≤ 299))
    (henv : env.response.header.resultCode ≠ "0000") :
    (fetchWithRetry attempts).attemptsMade ≤ 3 ∧
    (fetchWithRetry attempts).sleeps =
      (List.range ((fetchWithRetry attempts).attemptsMade - 1)).map
        (fun i => 2 ^ i * 1000) ∧
    isOk (runAttempt (FetchOutcome.networkError (T := T) m)) = false ∧
    isOk (runAttempt (FetchOutcome.response s b)) = false ∧
    isOk (runAttempt (FetchOutcome.response 200 (some env))) = false := by
  refine ⟨fetchLoop_attemptsMade_le attempts 0 3, ?_, rfl, ?_, ?_⟩
  · simpa using fetchLoop_sleeps_eq attempts 0 3
  · simp [runAttempt, hs, isOk]
  · simp [runAttempt, henv, isOk]

/-- Witness for C1 at a transport that always fails with a network error,
checked together with concrete instances of each retry trigger. -/
theorem c1_retry_count_and_backoff_witness :
    (fetchWithRetry (T := Nat) (fun _ => .networkError "down")).attemptsMade ≤ 3 ∧
    (fetchWithRetry (T := Nat) (fun _ => .networkError "down")).sleeps =
      (List.range ((fetchWithRetry (T := Nat)
        (fun _ => .networkError "down")).attemptsMade - 1)).map
        (fun i => 2 ^ i * 1000) ∧
    isOk (runAttempt (FetchOutcome.networkError (T := Nat) "refused")) = false ∧
    isOk (runAttempt (FetchOutcome.response (T := Nat) 500 none)) = false ∧
    isOk (runAttempt (FetchOutcome.response 200
      (some (⟨⟨⟨"9999", "bad"⟩, ⟨none, none, none, none⟩⟩⟩ : ApiResponse Nat)))) = false :=
  c1_retry_count_and_backoff (fun _ => .networkError "down") "refused" 500 none
    ⟨⟨⟨"9999", "bad"⟩, ⟨none, none, none, none⟩⟩⟩ (by decide) (by decide)

/-- Claim C2: `extractItems` is a pure normalization of `body.items.item`:
absent (at either nesting level) yields the empty list, a single object
yields exactly that object as a one-element list, and an array of `n`
objects is returned unchanged — same length, same order. -/
theorem c2_extract_items_normalization {T : Type} (hdr : ApiHeader)
    (rows page total : Option Nat) (t : T) (ts : List T) :
    extractItems ⟨⟨hdr, ⟨none, rows, page, total⟩⟩⟩ = ([] : List T) ∧
    extractItems ⟨⟨hdr, ⟨some ⟨none⟩, rows, page, total⟩⟩⟩ = ([] : List T) ∧
    extractItems ⟨⟨hdr, ⟨some ⟨some (.single t)⟩, rows, page, total⟩⟩⟩ = [t] ∧
    extractItems ⟨⟨hdr, ⟨some ⟨some (.array ts)⟩, rows, page, total⟩⟩⟩ = ts :=
  ⟨rfl, rfl, rfl, rfl⟩

/-- Claim C7: when all three attempts fail, the error raised to the caller
is the last error encountered (the error of attempt 2); and when the loop
body never runs — the only way `lastError` can still be unset, modelled by
`maxRetries = 0` — the generic `"API request failed after retries"` error is
raised instead of returning. -/
theorem c7_last_error_raised {T : Type}
    (attempts defensive : Nat → FetchOutcome T) (e0 e1 e2 : TourApiError)
    (h0 : runAttempt (attempts 0) = .error e0)
    (h1 : runAttempt (attempts 1) = .error e1)
    (h2 : runAttempt (attempts 2) = .error e2) :
    (fetchWithRetry attempts).result = .error e2 ∧
    (fetchWithRetry defensive 0).result = .error .afterRetries := by
  constructor
  · simp [fetchWithRetry, fetchLoop, h0, h1, h2]
  · rfl

/-- Witness for C7: three attempts failing with three distinct errors raise
the third one; at `maxRetries = 0` the generic failure is raised. -/
theorem c7_last_error_raised_witness :
    (fetchWithRetry (T := Nat) (fun i =>
      if i = 0 then .networkError "first"
      else if i = 1 then .response 500 none
      else .networkError "last")).result = .error (.networkError "last") ∧
    (fetchWithRetry (T := Nat) (fun _ => .networkError "never") 0).result
      = .error .afterRetries :=
  c7_last_error_raised _ _ (.networkError "first") (.httpError 500)
    (.networkError "last") rfl rfl rfl

/-- Claim C10: the retry loop retries on any error thrown during an attempt,
not only the three spec-listed triggers — a 2xx response whose body fails to
parse as JSON is an attempt failure (`parseError`), and whenever attempt 0
fails with any error whatsoever, a second attempt is made, preceded by the
same 1000 ms backoff, rather than the error being surfaced immediately. -/
theorem c10_retry_on_any_error {T : Type} (attempts : Nat → FetchOutcome T)
    (s : Nat) (e : TourApiError) (hs : 200 ≤ s ∧ s ≤ 299)
    (h0 : runAttempt (attempts 0) = .error e) :
    runAttempt (FetchOutcome.response (T := T) s none) = .error .parseError ∧
    2 ≤ (fetchWithRetry attempts).attemptsMade ∧
    (fetchWithRetry attempts).sleeps.head? = some 1000 := by
  have hpos : 1 ≤ (fetchLoop attempts 1 2).attemptsMade :=
    fetchLoop_attemptsMade_pos attempts 1 1
  have hstep : fetchWithRetry attempts =
      ⟨(fetchLoop attempts 1 2).attemptsMade + 1,
       1000 :: (fetchLoop attempts 1 2).sleeps,
       (fetchLoop attempts 1 2).result⟩ := by
    simpa [fetchWithRetry] using fetchLoop_error_cons attempts 0 2 e h0 (by decide)
  refine ⟨by simp [runAttempt, hs], ?_, ?_⟩
  · rw [hstep]
    show 2 ≤ (fetchLoop attempts 1 2).attemptsMade + 1
    omega
  · rw [hstep]
    rfl

/-- Witness for C10: a transport that always returns HTTP 200 with an
unparseable body is retried with the standard backoff. -/
theorem c10_retry_on_any_error_witness :
    runAttempt (FetchOutcome.response (T := Nat) 200 none) = .error .parseError ∧
    2 ≤ (fetchWithRetry (T := Nat) (fun _ => .response 200 none)).attemptsMade ∧
    (fetchWithRetry (T := Nat) (fun _ => .response 200 none)).sleeps.head?
      = some 1000 :=
  c10_retry_on_any_error (fun _ => .response 200 none) 200 .parseError
    (by decide) rfl

/-- Concrete stub envelope for the C3 counterexample: the body reports
`numOfRows = 50`, `pageNo = 7`, `totalCount = 45`. -/
def c3Resp : ApiResponse Nat :=
  ⟨⟨⟨"0000", "OK"⟩, ⟨none, some 50, some 7, some 45⟩⟩⟩

/-- Counterexample to claim C3: calling `getAreaBasedList` with request
parameters `numOfRows = 10, pageNo = 2` against an envelope whose body
states `numOfRows = 50, pageNo = 7, totalCount = 45` returns
`numOfRows = 10` and `pageNo = 2` — the request-side values, not the
envelope-read values 50 and 7 — so the claim that the result's `numOfRows`
and `pageNo` are read from the envelope body is false; `totalPages` is
`ceil(45/10) = 5`, computed with the request's `numOfRows`, not the
envelope's. -/
theorem c3_counterexample :
    (getAreaBasedList (T := Nat) "key" { numOfRows := some 10, pageNo := some 2 }
      (fun _ => .response 200 (some c3Resp))).result = .ok ⟨[], 45, 10, 2, 5⟩ ∧
    (extractPaginationInfo c3Resp).numOfRows = 50 ∧
    (extractPaginationInfo c3Resp).pageNo = 7 ∧
    (10 : Nat) ≠ 50 ∧ (2 : Nat) ≠ 7 :=
  ⟨rfl, rfl, rfl, by decide, by decide⟩

/-- Claim C3 as amended: in the paginated result of `getAreaBasedList` and
`searchKeyword`, `totalCount` is read from the envelope body (default 0 when
absent), while the returned `numOfRows` and `pageNo` are the request
parameters (defaults 20 and 1 when absent), not the envelope's values; and
`totalPages` is always recomputed client-side as
`ceil(totalCount / numOfRows)` with the request-side `numOfRows`, never
taken from the upstream envelope — in particular `totalCount = 45` with
`numOfRows = 20` derives `totalPages = 3`. -/
theorem c3_amended_pagination {T : Type} (apiKey : String)
    (pa : GetAreaBasedListParams) (ps : SearchKeywordParams)
    (attempts : Nat → FetchOutcome T) (resp : ApiResponse T)
    (hf : (fetchWithRetry attempts).result = .ok resp)
    (hk : jsTrim ps.keyword ≠ "") :
    (getAreaBasedList apiKey pa attempts).result =
      .ok ⟨extractItems resp,
           jsNatDefault resp.response.body.totalCount 0,
           jsNatDefault pa.numOfRows 20,
           jsNatDefault pa.pageNo 1,
           mathCeilDiv (jsNatDefault resp.response.body.totalCount 0)
             (jsNatDefault pa.numOfRows 20)⟩ ∧
    (searchKeyword apiKey ps attempts).result =
      .ok ⟨extractItems resp,
           jsNatDefault resp.response.body.totalCount 0,
           jsNatDefault ps.numOfRows 20,
           jsNatDefault ps.pageNo 1,
           mathCeilDiv (jsNatDefault resp.response.body.totalCount 0)
             (jsNatDefault ps.numOfRows 20)⟩ ∧
    mathCeilDiv 45 20 = 3 := by
  refine ⟨?_, ?_, by decide⟩
  · simp [getAreaBasedList, hf, extractPaginationInfo]
  · simp [searchKeyword, hk, hf, extractPaginationInfo]

/-- Stub envelope for the C3 witness: three items, `totalCount = 45`, with
deliberately different body-side `numOfRows = 50` and `pageNo = 7`. -/
def c3RespB : ApiResponse Nat :=
  ⟨⟨⟨"0000", "OK"⟩, ⟨some ⟨some (.array [1, 2, 3])⟩, some 50, some 7, some 45⟩⟩⟩

/-- Witness for the amended C3 at a concrete stub upstream. -/
theorem c3_amended_pagination_witness :
    (getAreaBasedList (T := Nat) "key" {}
      (fun _ => .response 200 (some c3RespB))).result =
      .ok ⟨[1, 2, 3], 45, 20, 1, 3⟩ ∧
    (searchKeyword (T := Nat) "key" { keyword := "seoul" }
      (fun _ => .response 200 (some c3RespB))).result =
      .ok ⟨[1, 2, 3], 45, 20, 1, 3⟩ ∧
    mathCeilDiv 45 20 = 3 :=
  c3_amended_pagination "key" {} { keyword := "seoul" }
    (fun _ => .response 200 (some c3RespB)) c3RespB rfl (by decide)

/-! ### Helper lemmas about query-parameter construction -/

theorem mem_addIfTruthy_iff (name : String) (v : Option String)
    (qs : List (String × String)) (x : String × String) :
    x ∈ addIfTruthy name v qs ↔
      x ∈ qs ∨ ∃ s, v = some s ∧ s ≠ "" ∧ x = (name, s) := by
  cases v with
  | none => simp [addIfTruthy]
  | some s =>
    by_cases h : s = ""
    · simp [addIfTruthy, h]
    · simp only [addIfTruthy, if_neg h, List.mem_append, List.mem_singleton]
      constructor
      · rintro (hq | hx)
        · exact Or.inl hq
        · exact Or.inr ⟨s, rfl, h, hx⟩
      · rintro (hq | ⟨s', hs', _, hx⟩)
        · exact Or.inl hq
        · cases hs'
          exact Or.inr hx

theorem mem_addOptionalEntries_iff (qs : List (String × String))
    (pairs : List (String × Option String)) (x : String × String) :
    x ∈ addOptionalEntries qs pairs ↔
      x ∈ qs ∨ ∃ n s, (n, some s) ∈ pairs ∧ s ≠ "" ∧ x = (n, s) := by
  induction pairs generalizing qs with
  | nil => simp [addOptionalEntries]
  | cons p ps ih =>
    show x ∈ addOptionalEntries (addIfTruthy p.1 p.2 qs) ps ↔ _
    rw [ih, mem_addIfTruthy_iff]
    constructor
    · rintro ((hq | ⟨s, hps, hs, hx⟩) | ⟨n, s, hp, hs, hx⟩)
      · exact Or.inl hq
      · exact Or.inr ⟨p.1, s, by simp [← hps], hs, hx⟩
      · exact Or.inr ⟨n, s, List.mem_cons_of_mem p hp, hs, hx⟩
    · rintro (hq | ⟨n, s, hp, hs, hx⟩)
      · exact Or.inl (Or.inl hq)
      · rcases List.mem_cons.mp hp with hp | hp
        · refine Or.inl (Or.inr ⟨s, ?_, hs, ?_⟩)
          · rw [← hp]
          · rw [hx, ← hp]
        · exact Or.inr ⟨n, s, hp, hs, hx⟩

theorem mem_addOptionalEntries_of_mem (qs : List (String × String))
    (pairs : List (String × Option String)) (x : String × String)
    (h : x ∈ qs) : x ∈ addOptionalEntries qs pairs :=
  (mem_addOptionalEntries_iff qs pairs x).mpr (Or.inl h)

theorem mem_optNatEntry_key (name : String) (v : Option Nat)
    (x : String × String) (hx : x ∈ optNatEntry name v) : x.1 = name := by
  cases v with
  | none => simp [optNatEntry] at hx
  | some n =>
    by_cases h : n = 0
    · simp [optNatEntry, h] at hx
    · simp only [optNatEntry, if_neg h, List.mem_singleton] at hx
      rw [hx]

theorem getCommonParams_keys (apiKey : String) (c : Option CommonParams)
    (x : String × String) (hx : x ∈ getCommonParams apiKey c) :
    x.1 = "serviceKey" ∨ x.1 = "MobileOS" ∨ x.1 = "MobileApp" ∨
    x.1 = "_type" ∨ x.1 = "numOfRows" ∨ x.1 = "pageNo" := by
  simp only [getCommonParams, List.append_assoc, List.mem_append,
    List.mem_cons, List.not_mem_nil, or_false] at hx
  rcases hx with (rfl | rfl | rfl | rfl) | hx | hx
  · simp
  · simp
  · simp
  · simp
  · simp [mem_optNatEntry_key "numOfRows" _ x hx]
  · simp [mem_optNatEntry_key "pageNo" _ x hx]

theorem mem_query_optional_iff (base : List (String × String))
    (pairs : List (String × Option String)) (n v : String)
    (hbase : ∀ x ∈ base, x.1 ≠ n) :
    ((n, v) ∈ addOptionalEntries base pairs ↔ (n, some v) ∈ pairs ∧ v ≠ "") := by
  rw [mem_addOptionalEntries_iff]
  constructor
  · rintro (hb | ⟨n', s, hp, hs, hx⟩)
    · exact absurd rfl (hbase _ hb)
    · rw [Prod.mk.injEq] at hx
      rcases hx with ⟨rfl, rfl⟩
      exact ⟨hp, hs⟩
  · rintro ⟨hp, hv⟩
    exact Or.inr ⟨n, v, hp, hv, rfl⟩

/-- Stub success envelope with zero items (shared by several witnesses). -/
def emptyItemsResp : ApiResponse Nat :=
  ⟨⟨⟨"0000", "OK"⟩, ⟨none, none, none, none⟩⟩⟩

/-- Stub success envelope whose `body.items.item` is the single object `7`. -/
def oneItemResp : ApiResponse Nat :=
  ⟨⟨⟨"0000", "OK"⟩, ⟨some ⟨some (.single 7)⟩, none, none, none⟩⟩⟩

/-- Stub envelope whose `resultCode` is the transient `"SERVICE_ERROR"`. -/
def serviceErrorResp : ApiResponse Nat :=
  ⟨⟨⟨"SERVICE_ERROR", "busy"⟩, ⟨none, none, none, none⟩⟩⟩

/-- Claim C4: required identifier/keyword inputs are trimmed, and an input
that is empty after trimming fails immediately with the invalid-argument
error — no request is built (`query = none`) and no HTTP attempt is made
(`httpAttempts = 0`): `searchKeyword` for an empty/whitespace keyword,
`getDetailCommon`, `getDetailIntro` (both of its ids), `getDetailImage` and
`getDetailPetTour` for an empty/whitespace id. For valid inputs, the value
sent in the query is the trimmed input. -/
theorem c4_trim_validation {T : Type} (apiKey cid cid2 : String)
    (ps ps2 : SearchKeywordParams) (attempts : Nat → FetchOutcome T)
    (hk : jsTrim ps.keyword = "") (hc : jsTrim cid = "")
    (hk2 : jsTrim ps2.keyword ≠ "") (hc2 : jsTrim cid2 ≠ "") :
    searchKeyword (T := T) apiKey ps attempts =
      ⟨none, 0, [], .error (.invalidArgument "Keyword is required")⟩ ∧
    getDetailCommon (T := T) apiKey cid attempts =
      ⟨none, 0, [], .error (.invalidArgument "ContentId is required")⟩ ∧
    getDetailIntro (T := T) apiKey cid "12" attempts =
      ⟨none, 0, [], .error (.invalidArgument "ContentId is required")⟩ ∧
    getDetailIntro (T := T) apiKey cid2 cid attempts =
      ⟨none, 0, [], .error (.invalidArgument "ContentTypeId is required")⟩ ∧
    getDetailImage (T := T) apiKey cid attempts =
      ⟨none, 0, [], .error (.invalidArgument "ContentId is required")⟩ ∧
    getDetailPetTour (T := T) apiKey cid attempts =
      ⟨none, 0, [], .error (.invalidArgument "ContentId is required")⟩ ∧
    (getDetailCommon (T := T) apiKey cid2 attempts).query =
      some (getCommonParams apiKey none ++ [("contentId", jsTrim cid2)]) ∧
    (searchKeyword (T := T) apiKey ps2 attempts).query =
      some (searchKeywordQuery apiKey ps2) ∧
    ("keyword", jsTrim ps2.keyword) ∈ searchKeywordQuery apiKey ps2 := by
  refine ⟨by simp [searchKeyword, hk], by simp [getDetailCommon, hc],
    by simp [getDetailIntro, hc], by simp [getDetailIntro, hc2, hc],
    by simp [getDetailImage, hc], by simp [getDetailPetTour, hc],
    ?_, ?_, ?_⟩
  · rcases h : (fetchWithRetry attempts).result with e | r
    · simp [getDetailCommon, hc2, h]
    · rcases hi : extractItems r with _ | ⟨x, xs⟩
      · simp [getDetailCommon, hc2, h, hi]
      · simp [getDetailCommon, hc2, h, hi]
  · rcases h : (fetchWithRetry attempts).result with e | r
    · simp [searchKeyword, hk2, h]
    · simp [searchKeyword, hk2, h]
  · exact mem_addOptionalEntries_of_mem _ _ _
      (List.mem_append.mpr (Or.inr (List.mem_singleton.mpr rfl)))

/-- Witness for C4: an empty keyword and a whitespace-only content id are
rejected with no request; a padded id/keyword is sent trimmed. -/
theorem c4_trim_validation_witness :
    searchKeyword (T := Nat) "k" { keyword := "" } (fun _ => .networkError "n") =
      ⟨none, 0, [], .error (.invalidArgument "Keyword is required")⟩ ∧
    getDetailCommon (T := Nat) "k" "   " (fun _ => .networkError "n") =
      ⟨none, 0, [], .error (.invalidArgument "ContentId is required")⟩ ∧
    getDetailIntro (T := Nat) "k" "   " "12" (fun _ => .networkError "n") =
      ⟨none, 0, [], .error (.invalidArgument "ContentId is required")⟩ ∧
    getDetailIntro (T := Nat) "k" " 99 " "   " (fun _ => .networkError "n") =
      ⟨none, 0, [], .error (.invalidArgument "ContentTypeId is required")⟩ ∧
    getDetailImage (T := Nat) "k" "   " (fun _ => .networkError "n") =
      ⟨none, 0, [], .error (.invalidArgument "ContentId is required")⟩ ∧
    getDetailPetTour (T := Nat) "k" "   " (fun _ => .networkError "n") =
      ⟨none, 0, [], .error (.invalidArgument "ContentId is required")⟩ ∧
    (getDetailCommon (T := Nat) "k" " 99 " (fun _ => .networkError "n")).query =
      some (getCommonParams "k" none ++ [("contentId", jsTrim " 99 ")]) ∧
    (searchKeyword (T := Nat) "k" { keyword := " hi " }
      (fun _ => .networkError "n")).query =
      some (searchKeywordQuery "k" { keyword := " hi " }) ∧
    ("keyword", jsTrim (" hi " : String)) ∈ searchKeywordQuery "k" { keyword := " hi " } :=
  c4_trim_validation "k" "   " " 99 " { keyword := "" } { keyword := " hi " }
    (fun _ => .networkError "n") (by decide) (by decide) (by decide) (by decide)

/-- Claim C5: `getDetailPetTour` never fails the caller on a zero-item
success envelope or on an upstream application error carrying the transient
`"SERVICE_ERROR"` code — both yield `none` instead of an error — while any
other fetch error propagates unchanged to the caller. -/
theorem c5_pet_info_error_suppression {T : Type} (apiKey cid m : String)
    (attempts attempts2 attempts3 : Nat → FetchOutcome T)
    (resp : ApiResponse T) (e : TourApiError)
    (hc : jsTrim cid ≠ "")
    (hok : (fetchWithRetry attempts).result = .ok resp)
    (hempty : extractItems resp = [])
    (hsvc : (fetchWithRetry attempts2).result = .error (.apiError m "SERVICE_ERROR"))
    (herr : (fetchWithRetry attempts3).result = .error e)
    (hne : ∀ msg, e ≠ .apiError msg "SERVICE_ERROR") :
    (getDetailPetTour apiKey cid attempts).result = .ok none ∧
    (getDetailPetTour apiKey cid attempts2).result = .ok none ∧
    (getDetailPetTour apiKey cid attempts3).result = .error e := by
  refine ⟨by simp [getDetailPetTour, hc, hok, hempty],
    by simp [getDetailPetTour, hc, hsvc], ?_⟩
  cases e with
  | apiError m' code =>
    have hcode : code ≠ "SERVICE_ERROR" := by
      intro h
      exact hne m' (by rw [h])
    simp [getDetailPetTour, hc, herr, hcode]
  | invalidArgument m' => simp [getDetailPetTour, hc, herr]
  | httpError s => simp [getDetailPetTour, hc, herr]
  | networkError m' => simp [getDetailPetTour, hc, herr]
  | parseError => simp [getDetailPetTour, hc, herr]
  | notFound m' => simp [getDetailPetTour, hc, herr]
  | afterRetries => simp [getDetailPetTour, hc, herr]

/-- Witness for C5: a zero-item envelope and a `SERVICE_ERROR` envelope both
yield `none`; a persistent HTTP 500 propagates as an error. -/
theorem c5_pet_info_error_suppression_witness :
    (getDetailPetTour (T := Nat) "k" "999"
      (fun _ => .response 200 (some emptyItemsResp))).result = .ok none ∧
    (getDetailPetTour (T := Nat) "k" "999"
      (fun _ => .response 200 (some serviceErrorResp))).result = .ok none ∧
    (getDetailPetTour (T := Nat) "k" "999"
      (fun _ => .response 500 none)).result = .error (.httpError 500) :=
  c5_pet_info_error_suppression "k" "999" "busy"
    (fun _ => .response 200 (some emptyItemsResp))
    (fun _ => .response 200 (some serviceErrorResp))
    (fun _ => .response 500 none)
    emptyItemsResp (.httpError 500)
    (by decide) rfl rfl rfl rfl (by intro msg h; cases h)

/-- Claim C6: `getDetailCommon` and `getDetailIntro` fail with their
not-found error whenever zero items are extracted from a successful
envelope; when at least one item is extracted each returns the first item. -/
theorem c6_detail_not_found {T : Type} (apiKey cid ctid : String)
    (attempts : Nat → FetchOutcome T) (resp : ApiResponse T) (x : T)
    (xs : List T)
    (hc : jsTrim cid ≠ "") (ht : jsTrim ctid ≠ "")
    (hok : (fetchWithRetry attempts).result = .ok resp) :
    (extractItems resp = [] →
      (getDetailCommon apiKey cid attempts).result =
        .error (.notFound ("Tour detail not found for contentId: " ++ cid)) ∧
      (getDetailIntro apiKey cid ctid attempts).result =
        .error (.notFound ("Tour intro not found for contentId: " ++ cid
          ++ ", contentTypeId: " ++ ctid))) ∧
    (extractItems resp = x :: xs →
      (getDetailCommon apiKey cid attempts).result = .ok x ∧
      (getDetailIntro apiKey cid ctid attempts).result = .ok x) := by
  constructor <;> intro h
  · exact ⟨by simp [getDetailCommon, hc, hok, h],
      by simp [getDetailIntro, hc, ht, hok, h]⟩
  · exact ⟨by simp [getDetailCommon, hc, hok, h],
      by simp [getDetailIntro, hc, ht, hok, h]⟩

/-- Witness for C6: a zero-item envelope raises the not-found error from
`getDetailCommon` while a one-item envelope returns the item. -/
theorem c6_detail_not_found_witness :
    (getDetailCommon (T := Nat) "k" "999"
      (fun _ => .response 200 (some emptyItemsResp))).result =
      .error (.notFound "Tour detail not found for contentId: 999") ∧
    (getDetailIntro (T := Nat) "k" "999" "12"
      (fun _ => .response 200 (some emptyItemsResp))).result =
      .error (.notFound "Tour intro not found for contentId: 999, contentTypeId: 12") ∧
    (getDetailCommon (T := Nat) "k" "999"
      (fun _ => .response 200 (some oneItemResp))).result = .ok 7 ∧
    (getDetailIntro (T := Nat) "k" "999" "12"
      (fun _ => .response 200 (some oneItemResp))).result = .ok 7 := by
  refine ⟨?_, ?_, ?_, ?_⟩
  · exact ((c6_detail_not_found "k" "999" "12"
      (fun _ => .response 200 (some emptyItemsResp)) emptyItemsResp 0 []
      (by decide) (by decide) rfl).1 rfl).1
  · exact ((c6_detail_not_found "k" "999" "12"
      (fun _ => .response 200 (some emptyItemsResp)) emptyItemsResp 0 []
      (by decide) (by decide) rfl).1 rfl).2
  · exact ((c6_detail_not_found "k" "999" "12"
      (fun _ => .response 200 (some oneItemResp)) oneItemResp 7 []
      (by decide) (by decide) rfl).2 rfl).1
  · exact ((c6_detail_not_found "k" "999" "12"
      (fun _ => .response 200 (some oneItemResp)) oneItemResp 7 []
      (by decide) (by decide) rfl).2 rfl).2

theorem getCommonParams_key_ne (apiKey : String) (c : Option CommonParams)
    (n : String)
    (h1 : n ≠ "serviceKey") (h2 : n ≠ "MobileOS") (h3 : n ≠ "MobileApp")
    (h4 : n ≠ "_type") (h5 : n ≠ "numOfRows") (h6 : n ≠ "pageNo") :
    ∀ x ∈ getCommonParams apiKey c, x.1 ≠ n := by
  intro x hx hxn
  rcases getCommonParams_keys apiKey c x hx with h | h | h | h | h | h
  · exact h1 (hxn.symm.trans h)
  · exact h2 (hxn.symm.trans h)
  · exact h3 (hxn.symm.trans h)
  · exact h4 (hxn.symm.trans h)
  · exact h5 (hxn.symm.trans h)
  · exact h6 (hxn.symm.trans h)

theorem mem_areaBasedListQuery_iff (apiKey : String)
    (pa : GetAreaBasedListParams) (n v : String)
    (h1 : n ≠ "serviceKey") (h2 : n ≠ "MobileOS") (h3 : n ≠ "MobileApp")
    (h4 : n ≠ "_type") (h5 : n ≠ "numOfRows") (h6 : n ≠ "pageNo") :
    ((n, v) ∈ areaBasedListQuery apiKey pa ↔
      (n, some v) ∈ areaBasedOptionalPairs pa ∧ v ≠ "") :=
  mem_query_optional_iff _ _ n v
    (getCommonParams_key_ne apiKey _ n h1 h2 h3 h4 h5 h6)

theorem mem_searchKeywordQuery_iff (apiKey : String) (ps : SearchKeywordParams)
    (n v : String)
    (h1 : n ≠ "serviceKey") (h2 : n ≠ "MobileOS") (h3 : n ≠ "MobileApp")
    (h4 : n ≠ "_type") (h5 : n ≠ "numOfRows") (h6 : n ≠ "pageNo")
    (h7 : n ≠ "keyword") :
    ((n, v) ∈ searchKeywordQuery apiKey ps ↔
      (n, some v) ∈ searchOptionalPairs ps ∧ v ≠ "") := by
  refine mem_query_optional_iff _ _ n v ?_
  intro x hx hxn
  rcases List.mem_append.mp hx with hx | hx
  · exact getCommonParams_key_ne apiKey _ n h1 h2 h3 h4 h5 h6 x hx hxn
  · rw [List.mem_singleton] at hx
    rw [hx] at hxn
    exact h7 hxn.symm

theorem jsNatDefault_pos (x : Option Nat) (d : Nat) (hd : 0 < d) :
    0 < jsNatDefault x d := by
  cases x with
  | none => simpa [jsNatDefault]
  | some n =>
    by_cases h : n = 0
    · simpa [jsNatDefault, h]
    · simpa [jsNatDefault, h] using Nat.pos_of_ne_zero h

/-- Counterexample to claim C8: with every optional option absent
(`params = {}` / only the required keyword), the outgoing query of the list
operations nevertheless contains the defaulted pagination options
`numOfRows=20` and `pageNo=1` — so it is not the case that an absent
optional query option is always omitted from the outgoing request, nor that
only explicitly provided options appear in the request URL. -/
theorem c8_counterexample :
    ({} : GetAreaBasedListParams).numOfRows = none ∧
    ({} : GetAreaBasedListParams).pageNo = none ∧
    ({ keyword := "x" } : SearchKeywordParams).numOfRows = none ∧
    ("numOfRows", "20") ∈ areaBasedListQuery "key" {} ∧
    ("pageNo", "1") ∈ areaBasedListQuery "key" {} ∧
    ("numOfRows", "20") ∈ searchKeywordQuery "key" { keyword := "x" } :=
  ⟨rfl, rfl, rfl, by decide, by decide, by decide⟩

/-- Claim C8 as amended: an optional *string filter* option that is absent
or empty is omitted from the outgoing request entirely — it never appears,
and in particular is never sent with an empty value — and such an option
appears in the query exactly when it was explicitly provided with a
non-empty value; stated for every optional filter of `getAreaBasedList` and
`searchKeyword`, and for `getAreaCode`'s optional parent area code. The
numeric pagination options are the exception: the list operations always
send `numOfRows` and `pageNo`, defaulting absent (or zero) values to 20
and 1. -/
theorem c8_amended_optional_params (apiKey : String)
    (pa : GetAreaBasedListParams) (ps : SearchKeywordParams)
    (areaCode : Option String) (v : String) :
    (("areaCode", v) ∈ areaBasedListQuery apiKey pa ↔
      pa.areaCode = some v ∧ v ≠ "") ∧
    (("sigunguCode", v) ∈ areaBasedListQuery apiKey pa ↔
      pa.sigunguCode = some v ∧ v ≠ "") ∧
    (("contentTypeId", v) ∈ areaBasedListQuery apiKey pa ↔
      pa.contentTypeId = some v ∧ v ≠ "") ∧
    (("cat1", v) ∈ areaBasedListQuery apiKey pa ↔ pa.cat1 = some v ∧ v ≠ "") ∧
    (("cat2", v) ∈ areaBasedListQuery apiKey pa ↔ pa.cat2 = some v ∧ v ≠ "") ∧
    (("cat3", v) ∈ areaBasedListQuery apiKey pa ↔ pa.cat3 = some v ∧ v ≠ "") ∧
    (("arrange", v) ∈ areaBasedListQuery apiKey pa ↔
      pa.arrange = some v ∧ v ≠ "") ∧
    (("modifiedtime", v) ∈ areaBasedListQuery apiKey pa ↔
      pa.modifiedtime = some v ∧ v ≠ "") ∧
    (("areaCode", v) ∈ searchKeywordQuery apiKey ps ↔
      ps.areaCode = some v ∧ v ≠ "") ∧
    (("sigunguCode", v) ∈ searchKeywordQuery apiKey ps ↔
      ps.sigunguCode = some v ∧ v ≠ "") ∧
    (("contentTypeId", v) ∈ searchKeywordQuery apiKey ps ↔
      ps.contentTypeId = some v ∧ v ≠ "") ∧
    (("cat1", v) ∈ searchKeywordQuery apiKey ps ↔ ps.cat1 = some v ∧ v ≠ "") ∧
    (("cat2", v) ∈ searchKeywordQuery apiKey ps ↔ ps.cat2 = some v ∧ v ≠ "") ∧
    (("cat3", v) ∈ searchKeywordQuery apiKey ps ↔ ps.cat3 = some v ∧ v ≠ "") ∧
    (("arrange", v) ∈ searchKeywordQuery apiKey ps ↔
      ps.arrange = some v ∧ v ≠ "") ∧
    (("modifiedtime", v) ∈ searchKeywordQuery apiKey ps ↔
      ps.modifiedtime = some v ∧ v ≠ "") ∧
    (("areaCode", v) ∈ addIfTruthy "areaCode" areaCode (getCommonParams apiKey none) ↔
      areaCode = some v ∧ v ≠ "") ∧
    ("numOfRows", toString (jsNatDefault pa.numOfRows 20)) ∈
      areaBasedListQuery apiKey pa ∧
    ("pageNo", toString (jsNatDefault pa.pageNo 1)) ∈
      areaBasedListQuery apiKey pa ∧
    ("numOfRows", toString (jsNatDefault ps.numOfRows 20)) ∈
      searchKeywordQuery apiKey ps ∧
    ("pageNo", toString (jsNatDefault ps.pageNo 1)) ∈
      searchKeywordQuery apiKey ps := by
  refine ⟨?_, ?_, ?_, ?_, ?_, ?_, ?_, ?_, ?_, ?_, ?_, ?_, ?_, ?_, ?_, ?_, ?_,
    ?_, ?_, ?_, ?_⟩ <;>
  first
    | (rw [mem_areaBasedListQuery_iff apiKey pa _ v (by decide) (by decide)
        (by decide) (by decide) (by decide) (by decide)]
       simp [areaBasedOptionalPairs, eq_comm])
    | (rw [mem_searchKeywordQuery_iff apiKey ps _ v (by decide) (by decide)
        (by decide) (by decide) (by decide) (by decide) (by decide)]
       simp [searchOptionalPairs, eq_comm])
    | (rw [mem_addIfTruthy_iff]
       constructor
       · rintro (hb | ⟨s, hs, hne, hx⟩)
         · exact absurd rfl (getCommonParams_key_ne apiKey none "areaCode"
             (by decide) (by decide) (by decide) (by decide) (by decide)
             (by decide) _ hb)
         · rw [Prod.mk.injEq] at hx
           rcases hx with ⟨-, rfl⟩
           exact ⟨hs, hne⟩
       · rintro ⟨hs, hv⟩
         exact Or.inr ⟨v, hs, hv, rfl⟩)
    | (apply mem_addOptionalEntries_of_mem
       simp [getCommonParams, optNatEntry,
         Nat.pos_iff_ne_zero.mp (jsNatDefault_pos pa.numOfRows 20 (by decide)),
         Nat.pos_iff_ne_zero.mp (jsNatDefault_pos pa.pageNo 1 (by decide)),
         Nat.pos_iff_ne_zero.mp (jsNatDefault_pos ps.numOfRows 20 (by decide)),
         Nat.pos_iff_ne_zero.mp (jsNatDefault_pos ps.pageNo 1 (by decide))])

/-- Claim C9: in `getAreaBasedList` and `searchKeyword`, a `numOfRows` of 0
or absent is replaced by the default 20 and a `pageNo` of 0 or absent by 1
before the request is built — the outgoing query carries the defaulted
values — and before `totalPages` is computed; for any request parameters the
defaulted `numOfRows` is positive, so the divisor of
`totalPages = ceil(totalCount / numOfRows)` is never zero and `totalPages`
is a well-defined natural number. -/
theorem c9_defaults_guard_division {T : Type} (apiKey : String)
    (pa pa2 : GetAreaBasedListParams) (ps : SearchKeywordParams)
    (attempts : Nat → FetchOutcome T) (resp : ApiResponse T)
    (hra : pa.numOfRows = none ∨ pa.numOfRows = some 0)
    (hpa : pa.pageNo = none ∨ pa.pageNo = some 0)
    (hf : (fetchWithRetry attempts).result = .ok resp)
    (hk : jsTrim ps.keyword ≠ "")
    (hrs : ps.numOfRows = none ∨ ps.numOfRows = some 0)
    (hps : ps.pageNo = none ∨ ps.pageNo = some 0) :
    jsNatDefault pa.numOfRows 20 = 20 ∧
    jsNatDefault pa.pageNo 1 = 1 ∧
    0 < jsNatDefault pa2.numOfRows 20 ∧
    ("numOfRows", toString (20 : Nat)) ∈ areaBasedListQuery apiKey pa ∧
    ("pageNo", toString (1 : Nat)) ∈ areaBasedListQuery apiKey pa ∧
    (getAreaBasedList apiKey pa attempts).result =
      .ok ⟨extractItems resp, jsNatDefault resp.response.body.totalCount 0,
        20, 1,
        mathCeilDiv (jsNatDefault resp.response.body.totalCount 0) 20⟩ ∧
    (searchKeyword apiKey ps attempts).result =
      .ok ⟨extractItems resp, jsNatDefault resp.response.body.totalCount 0,
        20, 1,
        mathCeilDiv (jsNatDefault resp.response.body.totalCount 0) 20⟩ := by
  have h20 : jsNatDefault pa.numOfRows 20 = 20 := by
    rcases hra with h | h <;> simp [jsNatDefault, h]
  have h1 : jsNatDefault pa.pageNo 1 = 1 := by
    rcases hpa with h | h <;> simp [jsNatDefault, h]
  have h20s : jsNatDefault ps.numOfRows 20 = 20 := by
    rcases hrs with h | h <;> simp [jsNatDefault, h]
  have h1s : jsNatDefault ps.pageNo 1 = 1 := by
    rcases hps with h | h <;> simp [jsNatDefault, h]
  refine ⟨h20, h1, jsNatDefault_pos _ _ (by decide), ?_, ?_, ?_, ?_⟩
  · simp only [areaBasedListQuery, h20, h1]
    apply mem_addOptionalEntries_of_mem
    simp [getCommonParams, optNatEntry]
  · simp only [areaBasedListQuery, h20, h1]
    apply mem_addOptionalEntries_of_mem
    simp [getCommonParams, optNatEntry]
  · simp [getAreaBasedList, hf, extractPaginationInfo, h20, h1]
  · simp [searchKeyword, hk, hf, extractPaginationInfo, h20s, h1s]

/-- Witness for C9: explicit zeros and absent values are defaulted to 20/1
in the query and in the derived pagination of both list operations. -/
theorem c9_defaults_guard_division_witness :
    jsNatDefault (some 0) 20 = 20 ∧
    jsNatDefault (some 0) 1 = 1 ∧
    0 < jsNatDefault (none : Option Nat) 20 ∧
    ("numOfRows", toString (20 : Nat)) ∈
      areaBasedListQuery "k" { numOfRows := some 0, pageNo := some 0 } ∧
    ("pageNo", toString (1 : Nat)) ∈
      areaBasedListQuery "k" { numOfRows := some 0, pageNo := some 0 } ∧
    (getAreaBasedList (T := Nat) "k" { numOfRows := some 0, pageNo := some 0 }
      (fun _ => .response 200 (some c3RespB))).result =
      .ok ⟨[1, 2, 3], 45, 20, 1, 3⟩ ∧
    (searchKeyword (T := Nat) "k" { keyword := "x" }
      (fun _ => .response 200 (some c3RespB))).result =
      .ok ⟨[1, 2, 3], 45, 20, 1, 3⟩ :=
  c9_defaults_guard_division "k" { numOfRows := some 0, pageNo := some 0 } {}
    { keyword := "x" } (fun _ => .response 200 (some c3RespB)) c3RespB
    (Or.inr rfl) (Or.inr rfl) rfl (by decide) (Or.inl rfl) (Or.inl rfl)

end TourApi
